import Mathlib

/-!
Shallow embedding of the entity-resolution and safe-mutation layer of
syncthingmanager (src/syncthingmanager/__init__.py).

The daemon's JSON configuration document is modelled by `Config`
(devices and folders).  The device-ID canonicalization endpoint
(`self.misc.device_id`, an external daemon call) and the filesystem
path resolution (`pathlib.Path(...).resolve()`) are external
collaborators and appear as function parameters
`canon : String → Option String` (`none` models the `SyncthingError`
branch) and `resolvePath : String → Option String` (`none` models
`FileNotFoundError`).

Every mutation in the Python code fetches the document, mutates a local
copy and submits it with `set_config`.  A mutation is therefore modelled
as a function from the fetched `Config` to an `OpResult Config`:
`ok cfg` means `cfg` was submitted, `stmError msg` means the operation
raised `SyncthingManagerError msg` before any submission, and
`typeError msg` means it raised an untyped Python exception (such as
`TypeError` from subscripting `None`) before any submission.
-/

namespace Stman

/-- Device entry of the configuration document, with the fields the code
reads and writes. -/
structure Device where
  deviceID : String
  name : String
  addresses : List String
  compression : String
  certName : String
  introducer : Bool
  deriving DecidableEq, Repr

/-- Entry of a folder's `devices` list.  The code only ever reads and
creates the `deviceID` key of these entries. -/
structure FolderDevice where
  deviceID : String
  deriving DecidableEq, Repr

/-- Versioning configuration of a folder: a `type` tag and a string-valued
parameter dictionary, as built by the versioning setters. -/
structure Versioning where
  vtype : String
  params : List (String × String)
  deriving DecidableEq, Repr

/-- Folder entry of the configuration document. -/
structure Folder where
  id : String
  label : String
  path : String
  type : String
  rescanIntervalS : Int
  devices : List FolderDevice
  versioning : Versioning
  fsync : Bool
  autoNormalize : Bool
  maxConflicts : Int
  pullerSleepS : Int
  minDiskFreePct : Int
  order : String
  ignorePerms : Bool
  deriving DecidableEq, Repr

/-- The whole configuration document returned by `self.system.config()`. -/
structure Config where
  devices : List Device
  folders : List Folder
  deriving DecidableEq, Repr

/-- Outcome of one mutation operation.  `ok` carries the document passed to
`set_config`; `stmError` is a raised `SyncthingManagerError` with its
message; `typeError` is an untyped Python exception.  In the error cases no
document is submitted. -/
inductive OpResult (α : Type) where
  | ok : α → OpResult α
  | stmError : String → OpResult α
  | typeError : String → OpResult α
  deriving DecidableEq, Repr

/-- Python `enumerate` with `break` on the first element satisfying `p`:
returns the index and the element of the first match. -/
def findWithIdx (p : α → Prop) [DecidablePred p] : List α → Option (Nat × α)
  | [] => none
  | x :: xs => if p x then some (0, x) else (findWithIdx p xs).map (fun q => (q.1 + 1, q.2))

/-- Python truthiness of the `id` values flowing through `device_info`:
`None` and the empty string are falsy, any other string is truthy. -/
def optTruthy : Option String → Bool
  | none => false
  | some s => decide (s ≠ "")

/-- Update the element at index `i` (no change when out of range), as the
Python statement `config['folders'][i][prop] = value` does. -/
def modifyAt (l : List α) (i : Nat) (g : α → α) : List α :=
  match l.get? i with
  | some x => l.set i (g x)
  | none => l

/-- Folder IDs collected by the nested loops of `device_info`: for each
folder, one copy of `folder.id` per entry of its `devices` list whose
`deviceID` equals `did` (duplicates allowed when the data is malformed). -/
def associatedFolders (folders : List Folder) (did : String) : List String :=
  (folders.map (fun f => f.devices.filterMap
    (fun d => if d.deviceID = did then some f.id else none))).flatten

/-- Result dictionary of `SyncthingManager.device_info`. -/
structure DeviceInfo where
  id : Option String
  index : Option Nat
  folders : List String
  name : Option String
  deriving DecidableEq, Repr

/-- Translation of `SyncthingManager.device_info`.  The candidate ID is
`canon devicestr` (set to `None` on `SyncthingError`).  When it is falsy the
devices are scanned for an exact name match; when it is truthy the devices
are scanned for the canonical deviceID and names are never consulted. -/
def device_info (canon : String → Option String) (cfg : Config)
    (devicestr : String) : DeviceInfo :=
  if optTruthy (canon devicestr) then
    match findWithIdx (fun d => canon devicestr = some d.deviceID) cfg.devices with
    | some (i, d) =>
        { id := canon devicestr, index := some i,
          folders := associatedFolders cfg.folders d.deviceID, name := some d.name }
    | none => { id := canon devicestr, index := none, folders := [], name := none }
  else
    match findWithIdx (fun d => devicestr = d.name) cfg.devices with
    | some (i, d) =>
        { id := some d.deviceID, index := some i,
          folders := associatedFolders cfg.folders d.deviceID, name := some d.name }
    | none => { id := canon devicestr, index := none, folders := [], name := none }

/-- Result dictionary of `SyncthingManager.folder_info` (the `Option` is
the Python `None` for "no matching folder"). -/
structure FolderInfo where
  id : String
  index : Nat
  label : String
  devices : List FolderDevice
  deriving DecidableEq, Repr

/-- Translation of `SyncthingManager.folder_info`: first pass over the
folders looking for a matching `id`, second pass looking for a matching
`label`, `none` when both fail. -/
def folder_info (cfg : Config) (folderstr : String) : Option FolderInfo :=
  match findWithIdx (fun f => f.id = folderstr) cfg.folders with
  | some (i, f) => some { id := f.id, index := i, label := f.label, devices := f.devices }
  | none =>
    match findWithIdx (fun f => f.label = folderstr) cfg.folders with
    | some (i, f) => some { id := f.id, index := i, label := f.label, devices := f.devices }
    | none => none

/-- Translation of `SyncthingManager.add_device`.  The Python code raises
`"Bad device ID: ..."` when `info['id']` is falsy, `"Device already
configured: ..."` when `info['index']` is an int, and otherwise appends a
device entry built from the canonical ID with fixed `compression` and
`certName` values and submits the document. -/
def add_device (canon : String → Option String) (cfg : Config) (device_id : String)
    (name address : String) (dynamic introducer : Bool) : OpResult Config :=
  let info := device_info canon cfg device_id
  if optTruthy info.id = false then
    .stmError ("Bad device ID: " ++ device_id)
  else
    match info.index with
    | some _ => .stmError ("Device already configured: " ++ device_id)
    | none =>
      let addresses := if dynamic then [address, "dynamic"] else [address]
      let newDevice : Device :=
        { deviceID := info.id.getD "", name := name, addresses := addresses,
          compression := "metadata", certName := "", introducer := introducer }
      .ok { cfg with devices := cfg.devices ++ [newDevice] }

/-- Translation of `SyncthingManager.remove_device`: raise when the
identifier does not resolve to an index, otherwise delete the entry at the
resolved index and submit. -/
def remove_device (canon : String → Option String) (cfg : Config)
    (devicestr : String) : OpResult Config :=
  let info := device_info canon cfg devicestr
  match info.index with
  | none => .stmError ("Device not configured: " ++ devicestr)
  | some i => .ok { cfg with devices := cfg.devices.eraseIdx i }

/-- Value written into a folder entry by `folder_edit` (Python passes an
arbitrary JSON-serializable value for the chosen property). -/
inductive FolderVal where
  | str : String → FolderVal
  | int : Int → FolderVal
  | bool : Bool → FolderVal
  | vers : Versioning → FolderVal
  deriving DecidableEq, Repr

/-- Dictionary assignment `folder[prop] = value` for the properties the
public setters use.  A property/value combination not produced by any
caller leaves the folder unchanged (the typed model of the dynamic dict). -/
def setFolderProp (f : Folder) (prop : String) (v : FolderVal) : Folder :=
  match prop, v with
  | "label", .str s => { f with label := s }
  | "rescanIntervalS", .int n => { f with rescanIntervalS := n }
  | "minDiskFreePct", .int n => { f with minDiskFreePct := n }
  | "type", .str s => { f with type := s }
  | "order", .str s => { f with order := s }
  | "ignorePerms", .bool b => { f with ignorePerms := b }
  | "versioning", .vers w => { f with versioning := w }
  | _, _ => f

/-- Translation of `SyncthingManager.folder_edit`.  When `folder_info`
returns `None`, the Python statement `if info['index'] is None:` subscripts
`None` and raises an untyped `TypeError`; the `NotConfigured` branch below
it is unreachable, because a found folder always carries an int index. -/
def folder_edit (cfg : Config) (folderstr prop : String) (v : FolderVal) :
    OpResult Config :=
  match folder_info cfg folderstr with
  | none => .typeError "NoneType object is not subscriptable"
  | some info =>
      .ok { cfg with
            folders := modifyAt cfg.folders info.index (fun f => setFolderProp f prop v) }

/-- Translation of `SyncthingManager.folder_setup_versioning_staggered`:
the max age is converted from days to seconds by `maxage*24*60**2` and
stored as a string in the staggered versioning parameters. -/
def folder_setup_versioning_staggered (cfg : Config) (folderstr : String)
    (maxage : Int) (path : String) : OpResult Config :=
  let maxage := maxage * 24 * 60 ^ 2
  let versioning : Versioning :=
    { vtype := "staggered",
      params := [("maxAge", toString maxage), ("cleanInterval", "3600"),
        ("versionsPath", path)] }
  folder_edit cfg folderstr "versioning" (.vers versioning)

/-- Translation of `SyncthingManager.add_folder`.  The duplicate check is
on folder IDs only; on success the appended entry carries the arguments
plus the fixed defaults the code writes.  The new entry's `devices`,
`versioning`, `order` and `ignorePerms` fields are not written by the code
(the daemon fills them on resubmission); the model uses the daemon-default
values empty list / no versioning / "random" / false for them. -/
def add_folder (resolvePath : String → Option String) (cfg : Config)
    (path folderid label foldertype : String) (rescan : Int) : OpResult Config :=
  if cfg.folders.any (fun f => f.id == folderid) then
    .stmError ("The folder ID " ++ folderid ++ " is already in use")
  else
    match resolvePath path with
    | none => .stmError ("There was a problem with the path entered: " ++ path)
    | some p =>
      let newFolder : Folder :=
        { id := folderid, label := label, path := p, type := foldertype,
          rescanIntervalS := rescan, fsync := true, autoNormalize := true,
          maxConflicts := 10, pullerSleepS := 0, minDiskFreePct := 1,
          devices := [], versioning := { vtype := "", params := [] },
          order := "random", ignorePerms := false }
      .ok { cfg with folders := cfg.folders ++ [newFolder] }

/-- Translation of `SyncthingManager.share_folder`: resolve the folder and
the device, raise on an unresolved folder or device, raise when the
device's ID is already in the folder's `devices` list, otherwise append a
`deviceID`-only entry and submit. -/
def share_folder (canon : String → Option String) (cfg : Config)
    (folderstr devicestr : String) : OpResult Config :=
  match folder_info cfg folderstr with
  | none => .stmError (folderstr ++ " is not the ID or label of a configured folder.")
  | some info =>
    let deviceinfo := device_info canon cfg devicestr
    match deviceinfo.index with
    | none => .stmError (devicestr ++ " is not a configured device name or ID")
    | some _ =>
      if info.devices.any (fun d => some d.deviceID == deviceinfo.id) then
        .stmError (devicestr ++ " is already associated with " ++ folderstr)
      else
        let newDevs := info.devices ++ [{ deviceID := deviceinfo.id.getD "" }]
        .ok { cfg with folders := modifyAt cfg.folders info.index (fun f => { f with devices := newDevs }) }

/-- Translation of `SyncthingManager.unshare_folder`: resolve both, raise
on an unresolved folder or device, delete the first entry of the folder's
`devices` list whose `deviceID` matches and submit; raise `"... is not
associated with ..."` when no entry matches. -/
def unshare_folder (canon : String → Option String) (cfg : Config)
    (folderstr devicestr : String) : OpResult Config :=
  match folder_info cfg folderstr with
  | none => .stmError (folderstr ++ " is not the ID or label of a configured folder.")
  | some info =>
    let deviceinfo := device_info canon cfg devicestr
    match deviceinfo.index with
    | none => .stmError (devicestr ++ " is not a configured device name or ID")
    | some _ =>
      match findWithIdx (fun d => some d.deviceID = deviceinfo.id) info.devices with
      | some (j, _) =>
          let newDevs := info.devices.eraseIdx j
          .ok { cfg with folders := modifyAt cfg.folders info.index (fun f => { f with devices := newDevs }) }
      | none => .stmError (devicestr ++ " is not associated with " ++ folderstr)

/-! Helper lemmas about `findWithIdx`, the first-match scan shared by the
resolvers. -/

theorem findWithIdx_eq_none_iff {α : Type} {p : α → Prop} [DecidablePred p]
    {l : List α} : findWithIdx p l = none ↔ ∀ x ∈ l, ¬ p x := by
  induction l with
  | nil => simp [findWithIdx]
  | cons a as ih =>
    by_cases ha : p a
    · simp [findWithIdx, ha]
    · simp [findWithIdx, ha, Option.map_eq_none', ih]

theorem findWithIdx_eq_some {α : Type} {p : α → Prop} [DecidablePred p]
    {l : List α} {i : Nat} {x : α} (h : findWithIdx p l = some (i, x)) :
    l.get? i = some x ∧ p x ∧ ∀ j, j < i → ∀ y, l.get? j = some y → ¬ p y := by
  induction l generalizing i with
  | nil => simp [findWithIdx] at h
  | cons a as ih =>
    by_cases ha : p a
    · simp only [findWithIdx, if_pos ha, Option.some.injEq, Prod.mk.injEq] at h
      obtain ⟨hi, hx⟩ := h
      subst hi; subst hx
      refine ⟨rfl, ha, ?_⟩
      intro j hj
      exact absurd hj (Nat.not_lt_zero j)
    · simp only [findWithIdx, if_neg ha, Option.map_eq_some'] at h
      obtain ⟨⟨i', y⟩, hfind, heq⟩ := h
      simp only [Prod.mk.injEq] at heq
      obtain ⟨hi, hx⟩ := heq
      subst hi; subst hx
      obtain ⟨hg, hp, hmin⟩ := ih hfind
      refine ⟨hg, hp, ?_⟩
      intro j hj y hy
      cases j with
      | zero =>
        simp only [List.get?] at hy
        cases hy; exact ha
      | succ k =>
        exact hmin k (Nat.lt_of_succ_lt_succ hj) y hy

theorem findWithIdx_eq_some_of {α : Type} {p : α → Prop} [DecidablePred p]
    {l : List α} {i : Nat} {x : α} (hget : l.get? i = some x) (hx : p x)
    (hmin : ∀ j, j < i → ∀ y, l.get? j = some y → ¬ p y) :
    findWithIdx p l = some (i, x) := by
  induction l generalizing i with
  | nil => simp at hget
  | cons a as ih =>
    cases i with
    | zero =>
      simp only [List.get?, Option.some.injEq] at hget
      subst hget
      simp [findWithIdx, hx]
    | succ n =>
      have ha : ¬ p a := hmin 0 (Nat.succ_pos n) a rfl
      have htail : findWithIdx p as = some (n, x) := by
        refine ih ?_ ?_
        · simpa using hget
        · intro j hj y hy
          exact hmin (j + 1) (Nat.succ_lt_succ hj) y (by simpa using hy)
      simp [findWithIdx, ha, htail]

theorem findWithIdx_append_singleton {α : Type} {p : α → Prop} [DecidablePred p]
    {l : List α} (h : findWithIdx p l = none) (x : α) :
    findWithIdx p (l ++ [x]) = if p x then some (l.length, x) else none := by
  induction l with
  | nil => simp [findWithIdx]
  | cons a as ih =>
    have ha : ¬ p a := by
      intro hpa
      simp [findWithIdx, hpa] at h
    have htail : findWithIdx p as = none := by
      simpa [findWithIdx, ha, Option.map_eq_none'] using h
    by_cases hx : p x
    · simp [findWithIdx, ha, ih htail, hx, List.length_cons]
    · simp [findWithIdx, ha, ih htail, hx]

theorem findWithIdx_set_of_found {α : Type} {p : α → Prop} [DecidablePred p]
    {l : List α} {i : Nat} {x : α} (h : findWithIdx p l = some (i, x))
    {x' : α} (hx' : p x') : findWithIdx p (l.set i x') = some (i, x') := by
  induction l generalizing i with
  | nil => simp [findWithIdx] at h
  | cons a as ih =>
    by_cases ha : p a
    · simp only [findWithIdx, if_pos ha, Option.some.injEq, Prod.mk.injEq] at h
      obtain ⟨hi, _⟩ := h
      subst hi
      simp [List.set, findWithIdx, hx']
    · simp only [findWithIdx, if_neg ha, Option.map_eq_some'] at h
      obtain ⟨⟨i', y⟩, hfind, heq⟩ := h
      simp only [Prod.mk.injEq] at heq
      obtain ⟨hi, hx⟩ := heq
      subst hi; subst hx
      simp [List.set, findWithIdx, ha, ih hfind]

theorem findWithIdx_set_of_none {α : Type} {p : α → Prop} [DecidablePred p]
    {l : List α} (h : findWithIdx p l = none) {i : Nat} {x' : α}
    (hx' : ¬ p x') : findWithIdx p (l.set i x') = none := by
  rw [findWithIdx_eq_none_iff] at h ⊢
  intro y hy
  rcases List.mem_or_eq_of_mem_set hy with hmem | rfl
  · exact h y hmem
  · exact hx'

theorem findWithIdx_congr {α : Type} {p q : α → Prop} [DecidablePred p]
    [DecidablePred q] (h : ∀ a, p a ↔ q a) (l : List α) :
    findWithIdx p l = findWithIdx q l := by
  induction l with
  | nil => rfl
  | cons a as ih =>
    by_cases hq : q a
    · simp [findWithIdx, hq, (h a).mpr hq]
    · have hp : ¬ p a := fun hpa => hq ((h a).mp hpa)
      simp [findWithIdx, hp, hq, ih]

theorem countP_eraseIdx_of_findWithIdx {α : Type} {p : α → Prop} [DecidablePred p]
    {l : List α} {i : Nat} {x : α} (h : findWithIdx p l = some (i, x)) :
    (l.eraseIdx i).countP (fun a => decide (p a))
      = l.countP (fun a => decide (p a)) - 1 := by
  induction l generalizing i with
  | nil => simp [findWithIdx] at h
  | cons a as ih =>
    by_cases ha : p a
    · simp only [findWithIdx, if_pos ha, Option.some.injEq, Prod.mk.injEq] at h
      obtain ⟨hi, _⟩ := h
      subst hi
      simp [List.eraseIdx, List.countP_cons, ha]
    · simp only [findWithIdx, if_neg ha, Option.map_eq_some'] at h
      obtain ⟨⟨i', y⟩, hfind, heq⟩ := h
      simp only [Prod.mk.injEq] at heq
      obtain ⟨hi, hx⟩ := heq
      subst hi; subst hx
      simp [List.eraseIdx, List.countP_cons, ha, ih hfind]

theorem findWithIdx_eq_none_of_countP_eq_zero {α : Type} {p : α → Prop}
    [DecidablePred p] {l : List α}
    (h : l.countP (fun a => decide (p a)) = 0) : findWithIdx p l = none := by
  rw [findWithIdx_eq_none_iff]
  intro x hx
  have := List.countP_eq_zero.mp h x hx
  simpa using this

theorem findWithIdx_ne_none_of_countP_pos {α : Type} {p : α → Prop}
    [DecidablePred p] {l : List α}
    (h : 0 < l.countP (fun a => decide (p a))) : findWithIdx p l ≠ none := by
  intro hn
  rw [findWithIdx_eq_none_iff] at hn
  have : l.countP (fun a => decide (p a)) = 0 :=
    List.countP_eq_zero.mpr (fun a ha => by simpa using hn a ha)
  omega

/-! Structural lemmas about the resolvers. -/

theorem folder_info_get {cfg : Config} {s : String} {info : FolderInfo}
    (h : folder_info cfg s = some info) :
    ∃ f, cfg.folders.get? info.index = some f ∧ f.id = info.id
      ∧ f.label = info.label ∧ f.devices = info.devices := by
  unfold folder_info at h
  rcases h1 : findWithIdx (fun f => f.id = s) cfg.folders with _ | ⟨i, f⟩
  · rw [h1] at h
    rcases h2 : findWithIdx (fun f => f.label = s) cfg.folders with _ | ⟨i, f⟩
    · rw [h2] at h; simp at h
    · rw [h2] at h
      simp only [Option.some.injEq] at h
      subst h
      exact ⟨f, (findWithIdx_eq_some h2).1, rfl, rfl, rfl⟩
  · rw [h1] at h
    simp only [Option.some.injEq] at h
    subst h
    exact ⟨f, (findWithIdx_eq_some h1).1, rfl, rfl, rfl⟩

theorem modifyAt_eq_set {α : Type} {l : List α} {i : Nat} {x : α}
    (h : l.get? i = some x) (g : α → α) : modifyAt l i g = l.set i (g x) := by
  unfold modifyAt
  rw [h]

theorem folder_info_modify_devices {cfg : Config} {s : String} {info : FolderInfo}
    (h : folder_info cfg s = some info) (devs : List FolderDevice) :
    folder_info { cfg with folders := modifyAt cfg.folders info.index (fun f => { f with devices := devs }) } s
      = some { info with devices := devs } := by
  unfold folder_info at h ⊢
  rcases h1 : findWithIdx (fun f => f.id = s) cfg.folders with _ | ⟨i, f⟩
  · rw [h1] at h
    rcases h2 : findWithIdx (fun f => f.label = s) cfg.folders with _ | ⟨i, f⟩
    · rw [h2] at h; simp at h
    · rw [h2] at h
      simp only [Option.some.injEq] at h
      subst h
      obtain ⟨hget, hp, _⟩ := findWithIdx_eq_some h2
      have hnid : ¬ (({ f with devices := devs } : Folder).id = s) := by
        have := findWithIdx_eq_none_iff.mp h1 f (List.get?_mem hget)
        simpa using this
      have hlbl : (({ f with devices := devs } : Folder).label = s) := by simpa using hp
      have hset := modifyAt_eq_set hget (fun f => ({ f with devices := devs } : Folder))
      simp only [hset]
      rw [findWithIdx_set_of_none h1 hnid, findWithIdx_set_of_found h2 hlbl]
  · rw [h1] at h
    simp only [Option.some.injEq] at h
    subst h
    obtain ⟨hget, hp, _⟩ := findWithIdx_eq_some h1
    have hid : (({ f with devices := devs } : Folder).id = s) := by simpa using hp
    have hset := modifyAt_eq_set hget (fun f => ({ f with devices := devs } : Folder))
    simp only [hset]
    rw [findWithIdx_set_of_found h1 hid]

theorem device_info_folders_indep (canon : String → Option String) (cfg : Config)
    (s : String) (folders' : List Folder) :
    (device_info canon { devices := cfg.devices, folders := folders' } s).index
      = (device_info canon cfg s).index
  ∧ (device_info canon { devices := cfg.devices, folders := folders' } s).id
      = (device_info canon cfg s).id := by
  unfold device_info
  by_cases ht : optTruthy (canon s)
  · rcases hf : findWithIdx (fun d => canon s = some d.deviceID) cfg.devices with _ | ⟨i, d⟩ <;>
      simp [ht, hf]
  · rcases hf : findWithIdx (fun d => s = d.name) cfg.devices with _ | ⟨i, d⟩ <;>
      simp [ht, hf]

/-! Concrete fixtures used by the counterexample and the witnesses. -/

/-- Device entry with the daemon-default scalar fields, used to build
concrete configurations. -/
def baseDevice : Device :=
  { deviceID := "", name := "", addresses := [], compression := "metadata",
    certName := "", introducer := false }

/-- Folder entry with the daemon-default scalar fields, used to build
concrete configurations. -/
def baseFolder : Folder :=
  { id := "", label := "", path := "/sync", type := "readwrite",
    rescanIntervalS := 60, devices := [], versioning := { vtype := "", params := [] },
    fsync := true, autoNormalize := true, maxConflicts := 10, pullerSleepS := 0,
    minDiskFreePct := 1, order := "random", ignorePerms := false }

/-- Concrete canonicalizer: a lookup table mapping both case variants of
three device-ID strings to their canonical form, failing elsewhere. -/
def canonW : String → Option String := fun s =>
  if s = "ID1" ∨ s = "id1" then some "ID1"
  else if s = "ID2" ∨ s = "id2" then some "ID2"
  else if s = "ID3" ∨ s = "id3" then some "ID3"
  else none

/-- Canonicalizer that accepts the string "NAMEID" (a string in valid
device-ID format that some device uses as its name) with canonical form
"BBB", and fails elsewhere. -/
def canonC1 : String → Option String := fun s =>
  if s = "NAMEID" then some "BBB" else none

/-- Configuration with one device whose name is "NAMEID" and whose
deviceID is "AAA". -/
def cfgC1 : Config :=
  { devices := [{ baseDevice with deviceID := "AAA", name := "NAMEID" }],
    folders := [] }

/-- Configuration with a single device "alpha" with deviceID "ID1". -/
def cfgW1 : Config :=
  { devices := [{ baseDevice with deviceID := "ID1", name := "alpha" }],
    folders := [] }

/-- Configuration with folder A (id "a", label "b") before folder B
(id "b"): A's label collides with B's id. -/
def cfgAB : Config :=
  { devices := [],
    folders := [{ baseFolder with id := "a", label := "b" },
      { baseFolder with id := "b", label := "x" }] }

/-- Configuration for the share/unshare scenario: device "alpha" (ID1) and
folder "f1" already sharing with ID1. -/
def cfgW4 : Config :=
  { devices := [{ baseDevice with deviceID := "ID1", name := "alpha" }],
    folders := [{ baseFolder with id := "f1", devices := [{ deviceID := "ID1" }] }] }

/-- Path resolver accepting exactly "/tmp/x". -/
def resolveW : String → Option String := fun p =>
  if p = "/tmp/x" then some "/tmp/x" else none

/-- Configuration with one folder whose label is "f1" but whose id is "g". -/
def cfgW8 : Config :=
  { devices := [],
    folders := [{ baseFolder with id := "g", label := "f1" }] }

/-- Configuration with one folder with id "f1". -/
def cfgW9 : Config :=
  { devices := [], folders := [{ baseFolder with id := "f1" }] }

/-- The empty configuration document. -/
def cfgE : Config := { devices := [], folders := [] }

/-! Claim theorems. -/

/-- C1 counterexample: in `cfgC1` the identifier "NAMEID" canonicalizes
successfully (to "BBB") but no device carries that deviceID, while a device
named exactly "NAMEID" exists at position 0; the claim then demands a name
match (index 0) and, failing everything, an absent/empty deviceID — yet the
code returns index absent together with the non-empty deviceID "BBB",
refuting both the name-fallback clause and the absent/empty clause. -/
theorem device_info_name_fallback_counterexample :
    (¬ ∃ d ∈ cfgC1.devices, canonC1 "NAMEID" = some d.deviceID)
  ∧ (∃ d ∈ cfgC1.devices, d.name = "NAMEID")
  ∧ (device_info canonC1 cfgC1 "NAMEID").index = none
  ∧ (device_info canonC1 cfgC1 "NAMEID").id = some "BBB" := by
  refine ⟨by decide, by decide, by decide, by decide⟩

/-- C1 (amended): when the identifier canonicalizes to a truthy candidate
ID, resolution is by deviceID only — the returned id is the canonical form,
the index is the position of the first device with that deviceID and is
absent when no device carries it (names are never consulted); only when
canonicalization fails (or is empty) is the first device whose name equals
the identifier returned, and when that also fails both id and index are
absent/empty. -/
theorem device_info_resolution (canon : String → Option String) (cfg : Config)
    (s : String) :
    (optTruthy (canon s) = true →
       (device_info canon cfg s).id = canon s
     ∧ (∀ i d, cfg.devices.get? i = some d → canon s = some d.deviceID →
          (∀ j, j < i → ∀ e, cfg.devices.get? j = some e → canon s ≠ some e.deviceID) →
          (device_info canon cfg s).index = some i)
     ∧ ((∀ d ∈ cfg.devices, canon s ≠ some d.deviceID) →
          (device_info canon cfg s).index = none))
  ∧ (optTruthy (canon s) = false →
       (∀ i d, cfg.devices.get? i = some d → d.name = s →
          (∀ j, j < i → ∀ e, cfg.devices.get? j = some e → e.name ≠ s) →
          (device_info canon cfg s).index = some i
            ∧ (device_info canon cfg s).id = some d.deviceID)
     ∧ ((∀ d ∈ cfg.devices, d.name ≠ s) →
          (device_info canon cfg s).index = none
            ∧ optTruthy (device_info canon cfg s).id = false)) := by
  constructor
  · intro ht
    refine ⟨?_, ?_, ?_⟩
    · unfold device_info
      rcases hf : findWithIdx (fun d => canon s = some d.deviceID) cfg.devices with _ | ⟨i, d⟩ <;>
        simp [ht, hf]
    · intro i d hget hp hmin
      have hfind : findWithIdx (fun d => canon s = some d.deviceID) cfg.devices = some (i, d) :=
        findWithIdx_eq_some_of hget hp (fun j hj y hy => hmin j hj y hy)
      unfold device_info
      simp [ht, hfind]
    · intro hnone
      have hfind : findWithIdx (fun d => canon s = some d.deviceID) cfg.devices = none :=
        findWithIdx_eq_none_iff.mpr (fun d hd => hnone d hd)
      unfold device_info
      simp [ht, hfind]
  · intro ht
    constructor
    · intro i d hget hp hmin
      have hfind : findWithIdx (fun d => s = d.name) cfg.devices = some (i, d) :=
        findWithIdx_eq_some_of hget hp.symm
          (fun j hj y hy h' => hmin j hj y hy h'.symm)
      unfold device_info
      simp [ht, hfind]
    · intro hnone
      have hfind : findWithIdx (fun d => s = d.name) cfg.devices = none :=
        findWithIdx_eq_none_iff.mpr (fun d hd h' => hnone d hd h'.symm)
      unfold device_info
      simp [ht, hfind]

/-- C1 witness: applying the amended resolution theorem at the concrete
table canonicalizer, once through the ID branch ("id1" resolves to the
device with deviceID "ID1" at position 0) and once through the name branch
("alpha" is not canonicalizable and resolves by exact name). -/
theorem device_info_resolution_witness :
    (device_info canonW cfgW1 "id1").index = some 0
  ∧ (device_info canonW cfgW1 "alpha").index = some 0 := by
  constructor
  · exact ((device_info_resolution canonW cfgW1 "id1").1 (by decide)).2.1 0
      { baseDevice with deviceID := "ID1", name := "alpha" } (by decide) (by decide)
      (fun j hj => absurd hj (Nat.not_lt_zero j))
  · exact (((device_info_resolution canonW cfgW1 "alpha").2 (by decide)).1 0
      { baseDevice with deviceID := "ID1", name := "alpha" } (by decide) (by decide)
      (fun j hj => absurd hj (Nat.not_lt_zero j))).1

/-- C2: folder_info resolves by folder id before label — a first-match id
scan, then (only when no folder id equals the identifier) a first-match
label scan, and `none` when both scans fail. -/
theorem folder_info_id_before_label (cfg : Config) (s : String) :
    (∀ i f, cfg.folders.get? i = some f → f.id = s →
       (∀ j, j < i → ∀ g, cfg.folders.get? j = some g → g.id ≠ s) →
       folder_info cfg s = some { id := f.id, index := i, label := f.label, devices := f.devices })
  ∧ ((∀ f ∈ cfg.folders, f.id ≠ s) →
       ∀ i f, cfg.folders.get? i = some f → f.label = s →
         (∀ j, j < i → ∀ g, cfg.folders.get? j = some g → g.label ≠ s) →
         folder_info cfg s = some { id := f.id, index := i, label := f.label, devices := f.devices })
  ∧ ((∀ f ∈ cfg.folders, f.id ≠ s ∧ f.label ≠ s) → folder_info cfg s = none) := by
  refine ⟨?_, ?_, ?_⟩
  · intro i f hget hp hmin
    have hfind : findWithIdx (fun f => f.id = s) cfg.folders = some (i, f) :=
      findWithIdx_eq_some_of hget hp hmin
    unfold folder_info
    simp [hfind]
  · intro hno i f hget hp hmin
    have h1 : findWithIdx (fun f => f.id = s) cfg.folders = none :=
      findWithIdx_eq_none_iff.mpr hno
    have h2 : findWithIdx (fun f => f.label = s) cfg.folders = some (i, f) :=
      findWithIdx_eq_some_of hget hp hmin
    unfold folder_info
    simp [h1, h2]
  · intro hno
    have h1 : findWithIdx (fun f => f.id = s) cfg.folders = none :=
      findWithIdx_eq_none_iff.mpr (fun f hf => (hno f hf).1)
    have h2 : findWithIdx (fun f => f.label = s) cfg.folders = none :=
      findWithIdx_eq_none_iff.mpr (fun f hf => (hno f hf).2)
    unfold folder_info
    simp [h1, h2]

/-- C2 witness: in `cfgAB` folder A (position 0) has label "b" equal to
folder B's id; resolving "b" returns B (index 1), not A — the id pass wins
over the earlier label match. -/
theorem folder_info_id_before_label_witness :
    folder_info cfgAB "b"
      = some { id := "b", index := 1, label := "x", devices := [] } := by
  have h := (folder_info_id_before_label cfgAB "b").1 1
    { baseFolder with id := "b", label := "x" } (by decide) (by decide)
  refine Eq.trans (h ?_) (by decide)
  intro j hj g hg
  have hj0 : j = 0 := by omega
  subst hj0
  have : { baseFolder with id := "a", label := "b" } = g := by
    simpa [cfgAB] using hg
  subst this
  decide

/-- C3: for a canonicalizable deviceID not yet configured, add_device
succeeds, an immediate resolve of the same identifier returns the index of
the appended device, and a second add_device with the same identifier fails
with the "Device already configured" error. -/
theorem add_device_roundtrip (canon : String → Option String) (cfg : Config)
    (s c name address : String) (dynamic introducer : Bool)
    (hc : canon s = some c) (hne : c ≠ "")
    (hnew : ∀ d ∈ cfg.devices, d.deviceID ≠ c) :
    ∃ cfg', add_device canon cfg s name address dynamic introducer = .ok cfg'
      ∧ (device_info canon cfg' s).index = some cfg.devices.length
      ∧ add_device canon cfg' s name address dynamic introducer
          = .stmError ("Device already configured: " ++ s) := by
  have ht : optTruthy (canon s) = true := by simp [hc, optTruthy, hne]
  have hfind : findWithIdx (fun d => canon s = some d.deviceID) cfg.devices = none := by
    refine findWithIdx_eq_none_iff.mpr ?_
    intro d hd hcontra
    rw [hc] at hcontra
    exact hnew d hd (Option.some_inj.mp hcontra).symm
  have hinfo : device_info canon cfg s
      = { id := canon s, index := none, folders := [], name := none } := by
    unfold device_info
    simp [ht, hfind]
  have hadd : add_device canon cfg s name address dynamic introducer
      = .ok { cfg with devices := cfg.devices ++ [{ deviceID := (canon s).getD "", name := name, addresses := (if dynamic then [address, "dynamic"] else [address]), compression := "metadata", certName := "", introducer := introducer }] } := by
    unfold add_device
    simp [hinfo, ht]
  have hfind2 : findWithIdx (fun d => canon s = some d.deviceID)
      (cfg.devices ++ [{ deviceID := (canon s).getD "", name := name, addresses := (if dynamic then [address, "dynamic"] else [address]), compression := "metadata", certName := "", introducer := introducer }])
      = some (cfg.devices.length, { deviceID := (canon s).getD "", name := name, addresses := (if dynamic then [address, "dynamic"] else [address]), compression := "metadata", certName := "", introducer := introducer }) := by
    rw [findWithIdx_append_singleton hfind]
    simp [hc]
  have hinfo2 : device_info canon { cfg with devices := cfg.devices ++ [{ deviceID := (canon s).getD "", name := name, addresses := (if dynamic then [address, "dynamic"] else [address]), compression := "metadata", certName := "", introducer := introducer }] } s
      = { id := canon s, index := some cfg.devices.length,
          folders := associatedFolders cfg.folders ((canon s).getD ""), name := some name } := by
    unfold device_info
    simp [ht, hfind2]
  refine ⟨_, hadd, ?_, ?_⟩
  · rw [hinfo2]
  · unfold add_device
    simp [hinfo2, ht]

/-- C3 witness: concrete round trip at the table canonicalizer, adding the
canonicalizable identifier "id2" to a configuration holding only "ID1". -/
theorem add_device_roundtrip_witness :
    ∃ cfg', add_device canonW cfgW1 "id2" "n" "tcp://x" true false = .ok cfg'
      ∧ (device_info canonW cfg' "id2").index = some 1
      ∧ add_device canonW cfg' "id2" "n" "tcp://x" true false
          = .stmError ("Device already configured: " ++ "id2") := by
  have h := add_device_roundtrip canonW cfgW1 "id2" "ID2" "n" "tcp://x" true false
    (by decide) (by decide) (by decide)
  simpa using h

/-- C5: evaluating folder_edit (and the staggered versioning setter built
on it) at an identifier resolving to no configured folder: the code raises
the untyped Python TypeError from subscripting None, not the typed
SyncthingManagerError carrying the "Folder not configured" message that
the unreachable branch below the subscript would produce. -/
theorem folder_edit_unconfigured_typeerror :
    folder_edit cfgE "missing" "label" (.str "x")
      = .typeError "NoneType object is not subscriptable"
  ∧ folder_setup_versioning_staggered cfgE "missing" 365 ""
      = .typeError "NoneType object is not subscriptable" := ⟨rfl, rfl⟩

/-- C6: remove_device on an identifier that does not resolve to a
configured device raises the "Device not configured" error before any
document is submitted (the result carries no replacement document). -/
theorem remove_device_unconfigured (canon : String → Option String)
    (cfg : Config) (s : String)
    (h : (device_info canon cfg s).index = none) :
    remove_device canon cfg s = .stmError ("Device not configured: " ++ s) := by
  unfold remove_device
  simp [h]

/-- C6 witness: removing an unknown identifier from the empty document. -/
theorem remove_device_unconfigured_witness :
    remove_device canonW cfgE "nope"
      = .stmError ("Device not configured: " ++ "nope") :=
  remove_device_unconfigured canonW cfgE "nope" (by decide)

/-- C7: a successful remove_device submits the document whose devices list
lost exactly the entry at the resolved index and whose folders list —
including every folder's devices set — is unchanged (no cascade). -/
theorem remove_device_frame (canon : String → Option String) (cfg : Config)
    (s : String) (i : Nat)
    (h : (device_info canon cfg s).index = some i) :
    remove_device canon cfg s
      = .ok { devices := cfg.devices.eraseIdx i, folders := cfg.folders } := by
  unfold remove_device
  simp [h]

/-- C7 witness: removing device "alpha" from a document whose folder "f1"
shares with alpha's deviceID leaves the folder (and its devices set)
untouched. -/
theorem remove_device_frame_witness :
    remove_device canonW cfgW4 "alpha" = .ok { devices := [], folders := cfgW4.folders }
  ∧ cfgW4.folders = [{ baseFolder with id := "f1", devices := [{ deviceID := "ID1" }] }] := by
  have h := remove_device_frame canonW cfgW4 "alpha" 0 (by decide)
  exact ⟨by simpa using h, rfl⟩

/-- C10: every successful add_device appends a device entry whose
compression field is "metadata" and whose certName field is the empty
string, regardless of the arguments. -/
theorem add_device_fixed_defaults (canon : String → Option String)
    (cfg : Config) (s name address : String) (dynamic introducer : Bool)
    (cfg' : Config)
    (h : add_device canon cfg s name address dynamic introducer = .ok cfg') :
    ∃ d, cfg'.devices = cfg.devices ++ [d]
      ∧ d.compression = "metadata" ∧ d.certName = "" := by
  simp only [add_device] at h
  split at h
  · exact OpResult.noConfusion h
  · split at h
    · exact OpResult.noConfusion h
    · rw [OpResult.ok.injEq] at h
      subst h
      exact ⟨_, rfl, rfl, rfl⟩

/-- C10 witness: a concrete successful add_device into the empty document
produces the fixed compression and certName values. -/
theorem add_device_fixed_defaults_witness :
    ∃ d, (Config.mk [{ deviceID := "ID1", name := "n", addresses := ["a"], compression := "metadata", certName := "", introducer := false }] []).devices
      = cfgE.devices ++ [d] ∧ d.compression = "metadata" ∧ d.certName = "" :=
  add_device_fixed_defaults canonW cfgE "id1" "n" "a" false false _ (by decide)

/-- C8: with a resolvable path, add_folder fails with the duplicate-ID
error exactly when some existing folder's id equals the requested folderID
(labels are not consulted), and otherwise appends a folder carrying the
requested id, label, type and rescan interval, which an immediate
resolve_folder then finds at the appended position. -/
theorem add_folder_spec (resolvePath : String → Option String) (cfg : Config)
    (path fid lbl ftype : String) (rescan : Int) (rp : String)
    (hp : resolvePath path = some rp) :
    (add_folder resolvePath cfg path fid lbl ftype rescan
        = .stmError ("The folder ID " ++ fid ++ " is already in use")
      ↔ ∃ f ∈ cfg.folders, f.id = fid)
  ∧ ((∀ f ∈ cfg.folders, f.id ≠ fid) →
      ∃ cfg' nf, add_folder resolvePath cfg path fid lbl ftype rescan = .ok cfg'
        ∧ cfg'.folders = cfg.folders ++ [nf]
        ∧ nf.id = fid ∧ nf.label = lbl ∧ nf.type = ftype
        ∧ nf.rescanIntervalS = rescan
        ∧ (folder_info cfg' fid).map FolderInfo.index = some cfg.folders.length
        ∧ cfg'.folders.get? cfg.folders.length = some nf) := by
  constructor
  · constructor
    · intro hL
      by_cases hd : cfg.folders.any (fun f => f.id == fid)
      · rw [List.any_eq_true] at hd
        obtain ⟨f, hfm, hid⟩ := hd
        exact ⟨f, hfm, by simpa using hid⟩
      · exfalso
        unfold add_folder at hL
        rw [if_neg hd, hp] at hL
        exact OpResult.noConfusion hL
    · rintro ⟨f, hfm, hid⟩
      have hd : cfg.folders.any (fun f => f.id == fid) := by
        rw [List.any_eq_true]
        exact ⟨f, hfm, by simpa using hid⟩
      unfold add_folder
      rw [if_pos hd]
  · intro hno
    have hd : ¬ (cfg.folders.any (fun f => f.id == fid) = true) := by
      rw [List.any_eq_true]
      rintro ⟨f, hfm, hid⟩
      exact hno f hfm (by simpa using hid)
    have hnewf : add_folder resolvePath cfg path fid lbl ftype rescan
        = .ok { cfg with folders := cfg.folders ++ [{ id := fid, label := lbl, path := rp, type := ftype, rescanIntervalS := rescan, fsync := true, autoNormalize := true, maxConflicts := 10, pullerSleepS := 0, minDiskFreePct := 1, devices := [], versioning := { vtype := "", params := [] }, order := "random", ignorePerms := false }] } := by
      unfold add_folder
      rw [if_neg hd, hp]
    have hfind : findWithIdx (fun f => f.id = fid) cfg.folders = none :=
      findWithIdx_eq_none_iff.mpr hno
    have hfind2 : findWithIdx (fun f => f.id = fid)
        (cfg.folders ++ [{ id := fid, label := lbl, path := rp, type := ftype, rescanIntervalS := rescan, fsync := true, autoNormalize := true, maxConflicts := 10, pullerSleepS := 0, minDiskFreePct := 1, devices := [], versioning := { vtype := "", params := [] }, order := "random", ignorePerms := false }])
        = some (cfg.folders.length, { id := fid, label := lbl, path := rp, type := ftype, rescanIntervalS := rescan, fsync := true, autoNormalize := true, maxConflicts := 10, pullerSleepS := 0, minDiskFreePct := 1, devices := [], versioning := { vtype := "", params := [] }, order := "random", ignorePerms := false }) := by
      rw [findWithIdx_append_singleton hfind]
      simp
    refine ⟨_, _, hnewf, rfl, rfl, rfl, rfl, rfl, ?_, ?_⟩
    · have hfi : folder_info { cfg with folders := cfg.folders ++ [{ id := fid, label := lbl, path := rp, type := ftype, rescanIntervalS := rescan, fsync := true, autoNormalize := true, maxConflicts := 10, pullerSleepS := 0, minDiskFreePct := 1, devices := [], versioning := { vtype := "", params := [] }, order := "random", ignorePerms := false }] } fid
          = some { id := fid, index := cfg.folders.length, label := lbl, devices := [] } := by
        unfold folder_info
        simp [hfind2]
      rw [hfi]
      rfl
    · rw [List.get?_eq_getElem?]
      exact List.getElem?_concat_length _ _

/-- C8 witness: adding folder "f1" to a document whose only folder has
label "f1" (but id "g") succeeds — labels are not checked — and the
round trip through resolve_folder finds the appended folder with
type "readwrite" and rescan interval 60. -/
theorem add_folder_spec_witness :
    ∃ cfg' nf, add_folder resolveW cfgW8 "/tmp/x" "f1" "" "readwrite" 60 = .ok cfg'
      ∧ cfg'.folders = cfgW8.folders ++ [nf]
      ∧ nf.id = "f1" ∧ nf.label = "" ∧ nf.type = "readwrite"
      ∧ nf.rescanIntervalS = 60
      ∧ (folder_info cfg' "f1").map FolderInfo.index = some 1
      ∧ cfg'.folders.get? 1 = some nf := by
  have h := (add_folder_spec resolveW cfgW8 "/tmp/x" "f1" "" "readwrite" 60 "/tmp/x"
    (by decide)).2 (by decide)
  simpa using h

/-- C9: on a configured folder, the staggered versioning setter submits a
document whose folder at the resolved index has versioning type
"staggered" with maxAge equal to the day count multiplied by 86400
(`maxage*24*60**2`) rendered as a string, and the given versions path. -/
theorem staggered_versioning_spec (cfg : Config) (fs : String)
    (finfo : FolderInfo) (maxage : Int) (path : String)
    (hf : folder_info cfg fs = some finfo) (_hm : 0 ≤ maxage) :
    ∃ cfg' f, folder_setup_versioning_staggered cfg fs maxage path = .ok cfg'
      ∧ cfg'.folders.get? finfo.index = some f
      ∧ f.versioning.vtype = "staggered"
      ∧ f.versioning.params.lookup "maxAge" = some (toString (maxage * 86400))
      ∧ f.versioning.params.lookup "versionsPath" = some path := by
  obtain ⟨f0, hget, _, _, _⟩ := folder_info_get hf
  have hrun : folder_setup_versioning_staggered cfg fs maxage path
      = .ok { cfg with folders := cfg.folders.set finfo.index (setFolderProp f0 "versioning" (.vers { vtype := "staggered", params := [("maxAge", toString (maxage * 24 * 60 ^ 2)), ("cleanInterval", "3600"), ("versionsPath", path)] })) } := by
    unfold folder_setup_versioning_staggered folder_edit
    rw [hf]
    simp only [modifyAt_eq_set hget]
  obtain ⟨hlt, -⟩ := List.get?_eq_some.mp hget
  have hgot : (cfg.folders.set finfo.index (setFolderProp f0 "versioning" (.vers { vtype := "staggered", params := [("maxAge", toString (maxage * 24 * 60 ^ 2)), ("cleanInterval", "3600"), ("versionsPath", path)] }))).get? finfo.index
      = some (setFolderProp f0 "versioning" (.vers { vtype := "staggered", params := [("maxAge", toString (maxage * 24 * 60 ^ 2)), ("cleanInterval", "3600"), ("versionsPath", path)] })) := by
    rw [List.get?_eq_getElem?, List.getElem?_set]
    simp [hlt]
  refine ⟨_, _, hrun, hgot, rfl, ?_, ?_⟩
  · show List.lookup "maxAge" [("maxAge", toString (maxage * 24 * 60 ^ 2)), ("cleanInterval", "3600"), ("versionsPath", path)] = some (toString (maxage * 86400))
    rw [show maxage * 24 * 60 ^ 2 = maxage * 86400 from by ring]
    simp [List.lookup]
  · show List.lookup "versionsPath" [("maxAge", toString (maxage * 24 * 60 ^ 2)), ("cleanInterval", "3600"), ("versionsPath", path)] = some path
    simp [List.lookup]

/-- C9 witness: setting staggered versioning with 365 days on folder "f1"
stores maxAge 365*86400 = 31536000 (as a string). -/
theorem staggered_versioning_spec_witness :
    (∃ cfg' f, folder_setup_versioning_staggered cfgW9 "f1" 365 "" = .ok cfg'
      ∧ cfg'.folders.get? 0 = some f
      ∧ f.versioning.vtype = "staggered"
      ∧ f.versioning.params.lookup "maxAge" = some (toString ((365 : Int) * 86400))
      ∧ f.versioning.params.lookup "versionsPath" = some "")
  ∧ toString ((365 : Int) * 86400) = "31536000" := by
  have h := staggered_versioning_spec cfgW9 "f1"
    { id := "f1", index := 0, label := "", devices := [] } 365 "" (by decide) (by decide)
  exact ⟨h, by decide⟩

/-- C4: with folder and device both resolved, share_folder fails with the
"already associated" error precisely when the device's ID is already in
the folder's devices list (so a duplicate is never appended — a success
appends the single new deviceID entry), unshare_folder removes exactly the
first matching entry, and when the pair was associated exactly once a
second unshare of the same pair fails with the "not associated" error. -/
theorem share_unshare_spec (canon : String → Option String) (cfg : Config)
    (fs ds : String) (finfo : FolderInfo) (di : Nat) (c : String)
    (hf : folder_info cfg fs = some finfo)
    (hdi : (device_info canon cfg ds).index = some di)
    (hdc : (device_info canon cfg ds).id = some c) :
    ((∃ e ∈ finfo.devices, e.deviceID = c) →
        share_folder canon cfg fs ds
          = .stmError (ds ++ " is already associated with " ++ fs))
  ∧ ((∀ e ∈ finfo.devices, e.deviceID ≠ c) →
        share_folder canon cfg fs ds
          = .ok { cfg with folders := modifyAt cfg.folders finfo.index (fun f => { f with devices := finfo.devices ++ [{ deviceID := c }] }) })
  ∧ (∀ j e, findWithIdx (fun e => e.deviceID = c) finfo.devices = some (j, e) →
        unshare_folder canon cfg fs ds
          = .ok { cfg with folders := modifyAt cfg.folders finfo.index (fun f => { f with devices := finfo.devices.eraseIdx j }) })
  ∧ (finfo.devices.countP (fun e => decide (e.deviceID = c)) = 1 →
        ∃ cfg', unshare_folder canon cfg fs ds = .ok cfg'
          ∧ unshare_folder canon cfg' fs ds
              = .stmError (ds ++ " is not associated with " ++ fs)) := by
  have hun : ∀ j e, findWithIdx (fun e => e.deviceID = c) finfo.devices = some (j, e) →
      unshare_folder canon cfg fs ds
        = .ok { cfg with folders := modifyAt cfg.folders finfo.index (fun f => { f with devices := finfo.devices.eraseIdx j }) } := by
    intro j e hq
    unfold unshare_folder
    simp [hf, hdi, hdc, hq]
  refine ⟨?_, ?_, hun, ?_⟩
  · intro hex
    have hany : finfo.devices.any (fun d => some d.deviceID == some c) = true := by
      rw [List.any_eq_true]
      obtain ⟨e, he, heq⟩ := hex
      exact ⟨e, he, by simp [heq]⟩
    unfold share_folder
    simp [hf, hdi, hdc, hany]
    exact hex
  · intro hno
    have hany : finfo.devices.any (fun d => some d.deviceID == some c) = false := by
      rw [List.any_eq_false]
      intro e he
      simp [hno e he]
    unfold share_folder
    simp [hf, hdi, hdc, hany]
    exact hno
  · intro hcount
    have hpos : 0 < finfo.devices.countP (fun e => decide (e.deviceID = c)) := by
      omega
    have hnn := findWithIdx_ne_none_of_countP_pos hpos
    rcases hq : findWithIdx (fun e => e.deviceID = c) finfo.devices with _ | ⟨j, e⟩
    · exact absurd hq hnn
    · refine ⟨_, hun j e hq, ?_⟩
      have hcount0 : (finfo.devices.eraseIdx j).countP (fun e => decide (e.deviceID = c)) = 0 := by
        rw [countP_eraseIdx_of_findWithIdx hq, hcount]
      have hnone : findWithIdx (fun e => e.deviceID = c) (finfo.devices.eraseIdx j) = none :=
        findWithIdx_eq_none_of_countP_eq_zero hcount0
      have hfi2 : folder_info { cfg with folders := modifyAt cfg.folders finfo.index (fun f => { f with devices := finfo.devices.eraseIdx j }) } fs
          = some { finfo with devices := finfo.devices.eraseIdx j } :=
        folder_info_modify_devices hf (finfo.devices.eraseIdx j)
      have hind := device_info_folders_indep canon cfg ds
        (modifyAt cfg.folders finfo.index (fun f => { f with devices := finfo.devices.eraseIdx j }))
      have hdi2 := hind.1.trans hdi
      have hdc2 := hind.2.trans hdc
      unfold unshare_folder
      simp [hfi2, hdi2, hdc2, hnone]

/-- C4 witness: in `cfgW4` folder "f1" already shares with device "alpha"
(deviceID "ID1"); a further share fails as already associated, one unshare
succeeds, and a second unshare of the same pair fails as not associated. -/
theorem share_unshare_spec_witness :
    share_folder canonW cfgW4 "f1" "alpha"
      = .stmError ("alpha" ++ " is already associated with " ++ "f1")
  ∧ ∃ cfg', unshare_folder canonW cfgW4 "f1" "alpha" = .ok cfg'
      ∧ unshare_folder canonW cfg' "f1" "alpha"
          = .stmError ("alpha" ++ " is not associated with " ++ "f1") := by
  have h := share_unshare_spec canonW cfgW4 "f1" "alpha"
    { id := "f1", index := 0, label := "", devices := [{ deviceID := "ID1" }] } 0 "ID1"
    (by decide) (by decide) (by decide)
  exact ⟨h.1 (by decide), h.2.2.2 (by decide)⟩

end Stman
